import Mathlib

/-
Verification of the GitSync repository. Shallow embedding of the remote
polling loop (src/app/github_poller.py), the debounced local watcher
(src/app/local_watcher.py) and the git gateway (src/app/git_ops.py),
followed by theorems settling the behavioural claims C1 to C10.
External effects (subprocess results, remote query results, filesystem
event streams) are passed in explicitly as oracle values; the Lean
functions mirror the control flow of the Python source.
-/

/-- Helper for the Python substring operator: charsLead ndl hay is true
when ndl is an initial segment of hay. -/
def charsLead : List Char → List Char → Bool
  | [], _ => true
  | _ :: _, [] => false
  | a :: as, b :: bs => a == b && charsLead as bs

/-- charsHas ndl hay is true when ndl occurs contiguously inside hay. -/
def charsHas (ndl : List Char) : List Char → Bool
  | [] => ndl.isEmpty
  | b :: bs => charsLead ndl (b :: bs) || charsHas ndl bs

/-- containsSub hay ndl models the Python expression ndl in hay. -/
def containsSub (hay ndl : String) : Bool :=
  charsHas ndl.data hay.data

/-- lowerStr models the Python str.lower call, character by character. -/
def lowerStr (s : String) : String :=
  String.mk (s.data.map Char.toLower)

/-- GatewayCall: the VCS gateway operations the poll loop can issue
(github_poller.poll_loop calls git_ops.clone and git_ops.pull). -/
inductive GatewayCall
  | cloneCall
  | pullCall
  deriving DecidableEq

/-- WaitKind: the blocking wait a poll iteration ends with. sleepWait
models time.sleep(interval_seconds) on the query-failure path
(github_poller.py line 69, followed by continue which skips the bottom
wait); eventWait models stop_event.wait(interval_seconds) at line 92. -/
inductive WaitKind
  | sleepWait
  | eventWait
  deriving DecidableEq

/-- interruptibleWait: whether setting the stop signal wakes the wait
early. threading.Event.wait returns as soon as the event is set, while
time.sleep is never woken by the event being set. -/
def interruptibleWait : WaitKind → Bool
  | WaitKind.sleepWait => false
  | WaitKind.eventWait => true

/-- PollState: the detector loop state across iterations: the last_sha
variable of poll_loop, and whether the local path is a git working copy
(the git_ops.is_git_repo observation; a successful clone establishes
it). -/
structure PollState where
  lastSha : Option String
  repoExists : Bool
  deriving DecidableEq

/-- IterInput: the environment of one poll iteration: the result of
fetch_latest_sha (none on query failure) and whether a clone or a pull
issued this iteration would succeed. -/
structure IterInput where
  fetch : Option String
  cloneOK : Bool
  pullOK : Bool

/-- pollIter models one iteration of github_poller.poll_loop (lines
65 to 92): on query failure nothing changes and the iteration ends in
time.sleep; with no working copy a clone is issued and on success the
fetched sha is adopted; with a working copy and an established last_sha
differing from the fetched sha a pull is issued and on success the sha
is adopted (on failure last_sha is unchanged); with matching shas
nothing is issued; with no established last_sha the sha is adopted
silently. Returns the new state, the gateway calls issued, and the
blocking wait the iteration ends with. -/
def pollIter (s : PollState) (i : IterInput) : PollState × List GatewayCall × WaitKind :=
  match i.fetch with
  | none => (s, [], WaitKind.sleepWait)
  | some sha =>
    if s.repoExists = false then
      if i.cloneOK = true then
        (⟨some sha, true⟩, [GatewayCall.cloneCall], WaitKind.eventWait)
      else
        (s, [GatewayCall.cloneCall], WaitKind.eventWait)
    else
      match s.lastSha with
      | some last =>
        if sha = last then (s, [], WaitKind.eventWait)
        else if i.pullOK = true then
          (⟨some sha, s.repoExists⟩, [GatewayCall.pullCall], WaitKind.eventWait)
        else (s, [GatewayCall.pullCall], WaitKind.eventWait)
      | none => (⟨some sha, s.repoExists⟩, [], WaitKind.eventWait)

/-- runPoll iterates pollIter over a list of iteration inputs, returning
the final state and the per-iteration lists of gateway calls. -/
def runPoll (s : PollState) : List IterInput → PollState × List (List GatewayCall)
  | [] => (s, [])
  | i :: rest =>
    let r := pollIter s i
    let f := runPoll r.1 rest
    (f.1, r.2.1 :: f.2)

/-- SyncCall: the VCS gateway operations of the watcher sync sequence in
local_watcher.DebouncedCommitHandler. -/
inductive SyncCall
  | pullRebase
  | stageAll
  | commitCall
  | pushCall
  deriving DecidableEq

/-- SyncEnv: the oracle for one sync cycle: the git_ops.is_git_repo and
git_ops.has_changes observations and whether each later gateway step
would succeed if issued. -/
structure SyncEnv where
  isGitRepo : Bool
  hasChanges : Bool
  pullRebaseOK : Bool
  addOK : Bool
  commitOK : Bool
  pushOK : Bool

/-- doCommitAndPush models DebouncedCommitHandler._do_commit_and_push
(local_watcher.py lines 56 to 76), returning the list of gateway calls
issued in order: abort before any call when the path is not a working
copy or there are no pending changes; when pull-before-push is configured
a failed pull-rebase aborts before staging; each later failure
short-circuits the remaining steps. pbp is the pull_before_push
configuration flag. -/
def doCommitAndPush (pbp : Bool) (env : SyncEnv) : List SyncCall :=
  if env.isGitRepo = false then []
  else if env.hasChanges = false then []
  else if pbp = true ∧ env.pullRebaseOK = false then [SyncCall.pullRebase]
  else
    let pre : List SyncCall := if pbp = true then [SyncCall.pullRebase] else []
    if env.addOK = false then pre ++ [SyncCall.stageAll]
    else if env.commitOK = false then pre ++ [SyncCall.stageAll, SyncCall.commitCall]
    else pre ++ [SyncCall.stageAll, SyncCall.commitCall, SyncCall.pushCall]

/-- debounceFires: given the debounce window D and the increasing list of
qualifying event times, the times at which the debounce callback fires.
Each qualifying event cancels any pending timer and schedules one at its
own time plus D (DebouncedCommitHandler._reset_timer, lines 43 to 49); a
pending timer fires only when the next qualifying event arrives no
earlier than its deadline, and the last pending timer always fires. -/
def debounceFires (D : Nat) : List Nat → List Nat
  | [] => []
  | [t] => [t + D]
  | t :: t2 :: rest =>
    if t2 < t + D then debounceFires D (t2 :: rest)
    else (t + D) :: debounceFires D (t2 :: rest)

/-- burst D ts is true when every event in ts arrives strictly less than
D after its predecessor. -/
def burst (D : Nat) : List Nat → Bool
  | [] => true
  | [_] => true
  | t :: t2 :: rest => decide (t2 < t + D) && burst D (t2 :: rest)

/-- lastTime d ts is the last element of ts, or d when ts is empty. -/
def lastTime (d : Nat) : List Nat → Nat
  | [] => d
  | t :: rest => lastTime t rest

/-- onEvent models DebouncedCommitHandler._on_event (local_watcher.py
lines 78 to 83) acting on the pending-deadline state: an event whose path
has a .git component is discarded and the state is untouched; any other
event cancels the pending timer and schedules the deadline now + D. The
path is given as its list of components, as Path(src).parts produces. -/
def onEvent (D now : Nat) (parts : List String) (st : Option Nat) : Option Nat :=
  if ".git" ∈ parts then st else some (now + D)

/-- ProcOutcome: the outcome of one git subprocess run: completion with
exit code, stdout and stderr, or expiry of the timeout
(subprocess.TimeoutExpired). -/
inductive ProcOutcome
  | completed (code : Int) (out err : String)
  | timedOut

/-- runGit models _run_git (git_ops.py lines 27 to 44): completion passes
the triple through; a timeout is caught and converted to exit code -1
with empty stdout and the stderr text Timeout, so no exception escapes. -/
def runGit (o : ProcOutcome) : Int × String × String :=
  match o with
  | ProcOutcome.completed code out err => (code, out, err)
  | ProcOutcome.timedOut => (-1, "", "Timeout")

/-- GitInvocation: the subprocess request _run_git builds: the git
argument list and the timeout bound passed to subprocess.run. -/
structure GitInvocation where
  args : List String
  timeout : Nat

/-- mkGitInvocation models how _run_git invokes subprocess.run: every
invocation carries the fixed timeout of 120 (git_ops.py line 39). -/
def mkGitInvocation (args : List String) : GitInvocation :=
  ⟨args, 120⟩

/-- commitRun models git_ops.commit (lines 95 to 108): success when the
git commit invocation exits 0, or when it fails but its stderr contains
the nothing-to-commit diagnostic; any other failure is reported as
failure. -/
def commitRun (o : ProcOutcome) : Bool :=
  let r := runGit o
  if r.1 ≠ 0 then
    if containsSub r.2.2 "nothing to commit" = true then true else false
  else true

/-- CloneAction: the side-effecting steps of git_ops.clone in order:
creating the parent directories of the local path, the branch-specific
clone attempt, and the default-branch fallback clone attempt. -/
inductive CloneAction
  | makeParentDirs
  | cloneWithBranch
  | cloneDefault
  deriving DecidableEq

/-- couldntFind is the second diagnostic fragment matched by
git_ops.clone, spelled out character by character. -/
def couldntFind : String :=
  String.mk (['c', 'o', 'u', 'l', 'd', 'n'] ++ [Char.ofNat 39] ++ ['t', ' ', 'f', 'i', 'n', 'd'])

/-- cloneRun models git_ops.clone (lines 47 to 60): parent directories
are created first (os.makedirs with exist_ok), then a clone of the named
branch is attempted; when that fails and its lowercased stderr contains a
branch-not-found diagnostic, a clone without the branch argument (the
default branch) is attempted and its success decides the result; any
other failure is failure. firstRes is the branch-clone subprocess result
and fbCode the fallback-clone exit code. Returns the success flag and
the ordered list of side-effecting steps taken. -/
def cloneRun (firstRes : Int × String × String) (fbCode : Int) : Bool × List CloneAction :=
  let code := firstRes.1
  let err := firstRes.2.2
  if code ≠ 0 then
    if containsSub (lowerStr err) "not found" = true ∨ containsSub (lowerStr err) couldntFind = true then
      if fbCode = 0 then
        (true, [CloneAction.makeParentDirs, CloneAction.cloneWithBranch, CloneAction.cloneDefault])
      else
        (false, [CloneAction.makeParentDirs, CloneAction.cloneWithBranch, CloneAction.cloneDefault])
    else (false, [CloneAction.makeParentDirs, CloneAction.cloneWithBranch])
  else (true, [CloneAction.makeParentDirs, CloneAction.cloneWithBranch])

/-- Claim C1: for every nonempty burst of qualifying events in which each
event arrives strictly less than debounce_seconds after the previous one,
exactly one sync fires, debounce_seconds after the last event of the
burst. -/
theorem debounce_burst_fires_once_after_last (D t0 : Nat) (ts : List Nat)
    (h : burst D (t0 :: ts) = true) :
    debounceFires D (t0 :: ts) = [lastTime t0 ts + D] := by
  induction ts generalizing t0 with
  | nil => rfl
  | cons t1 rest ih =>
    simp only [burst, Bool.and_eq_true, decide_eq_true_eq] at h
    obtain ⟨hlt, hb⟩ := h
    simp only [debounceFires, if_pos hlt, lastTime]
    exact ih t1 hb

/-- Witness for C1: the burst of events at times 0, 5, 9, 18 with window
10 fires exactly once, at time 28. -/
theorem debounce_burst_fires_once_after_last_witness :
    burst 10 [0, 5, 9, 18] = true ∧ debounceFires 10 [0, 5, 9, 18] = [28] :=
  ⟨by decide, debounce_burst_fires_once_after_last 10 0 [5, 9, 18] (by decide)⟩

/-- Claim C2: starting with no working copy and no established revision,
observing remote revisions A, A, B, B, A one per iteration with all
queries and VCS operations succeeding, the gateway receives exactly one
clone (on the first observation, adopting A) and exactly two pulls (when
B is first observed and when A is observed again), and nothing on either
consecutive repeated observation; the final adopted revision is A. -/
theorem poll_sequence_one_clone_two_pulls (A B : String) (h : A ≠ B) :
    runPoll ⟨none, false⟩
      [⟨some A, true, true⟩, ⟨some A, true, true⟩, ⟨some B, true, true⟩,
       ⟨some B, true, true⟩, ⟨some A, true, true⟩] =
    (⟨some A, true⟩,
     [[GatewayCall.cloneCall], [], [GatewayCall.pullCall], [], [GatewayCall.pullCall]]) := by
  have h2 : B ≠ A := fun e => h e.symm
  simp [runPoll, pollIter, h, h2]

/-- Witness for C2: the sequence with concrete distinct revisions a
and b. -/
theorem poll_sequence_one_clone_two_pulls_witness :
    ("a" : String) ≠ "b" ∧
    runPoll ⟨none, false⟩
      [⟨some "a", true, true⟩, ⟨some "a", true, true⟩, ⟨some "b", true, true⟩,
       ⟨some "b", true, true⟩, ⟨some "a", true, true⟩] =
    (⟨some "a", true⟩,
     [[GatewayCall.cloneCall], [], [GatewayCall.pullCall], [], [GatewayCall.pullCall]]) :=
  ⟨by decide, poll_sequence_one_clone_two_pulls "a" "b" (by decide)⟩

/-- Claim C3: when pull-before-push is configured and the pull-rebase
step fails, the sync cycle issues no stage, no commit and no push call. -/
theorem pull_rebase_failure_blocks_stage_commit_push (env : SyncEnv)
    (hp : env.pullRebaseOK = false) :
    SyncCall.stageAll ∉ doCommitAndPush true env ∧
    SyncCall.commitCall ∉ doCommitAndPush true env ∧
    SyncCall.pushCall ∉ doCommitAndPush true env := by
  unfold doCommitAndPush
  rcases hg : env.isGitRepo with _ | _ <;>
    rcases hc : env.hasChanges with _ | _ <;>
      simp [hg, hc, hp]

/-- Witness for C3: a cycle with a working copy, pending changes and a
failing pull-rebase issues no stage call. -/
theorem pull_rebase_failure_blocks_stage_commit_push_witness :
    (⟨true, true, false, true, true, true⟩ : SyncEnv).pullRebaseOK = false ∧
    SyncCall.stageAll ∉ doCommitAndPush true ⟨true, true, false, true, true, true⟩ :=
  ⟨rfl, (pull_rebase_failure_blocks_stage_commit_push ⟨true, true, false, true, true, true⟩ rfl).1⟩

/-- Claim C4: when has_changes reports false the sync cycle issues no
gateway call at all, in particular no stage, no commit and no push. -/
theorem no_changes_no_sync_calls (pbp : Bool) (env : SyncEnv)
    (hc : env.hasChanges = false) :
    doCommitAndPush pbp env = [] ∧
    SyncCall.stageAll ∉ doCommitAndPush pbp env ∧
    SyncCall.commitCall ∉ doCommitAndPush pbp env ∧
    SyncCall.pushCall ∉ doCommitAndPush pbp env := by
  unfold doCommitAndPush
  rcases hg : env.isGitRepo with _ | _ <;> simp [hg, hc]

/-- Witness for C4: a cycle over a working copy with no pending changes
issues no calls. -/
theorem no_changes_no_sync_calls_witness :
    (⟨true, false, true, true, true, true⟩ : SyncEnv).hasChanges = false ∧
    doCommitAndPush true ⟨true, false, true, true, true, true⟩ = [] :=
  ⟨rfl, (no_changes_no_sync_calls true ⟨true, false, true, true, true, true⟩ rfl).1⟩

/-- Claim C5: an event whose path lies under the .git subdirectory of the
watched directory leaves the debounce state unchanged: no timer is
scheduled or rescheduled. -/
theorem git_metadata_event_keeps_state (D now : Nat) (w rest : List String)
    (st : Option Nat) :
    onEvent D now (w ++ ".git" :: rest) st = st := by
  unfold onEvent
  rw [if_pos]
  exact List.mem_append_right w (List.mem_cons_self _ _)

/-- Claim C6: a commit whose underlying git invocation fails with a
nothing-to-commit diagnostic is reported as success, not failure. -/
theorem commit_nothing_to_commit_success (code : Int) (out err : String)
    (hc : code ≠ 0) (hd : containsSub err "nothing to commit" = true) :
    commitRun (ProcOutcome.completed code out err) = true := by
  unfold commitRun runGit
  simp [hc, hd]

/-- Witness for C6: a failing invocation whose stderr carries the
diagnostic is treated as success. -/
theorem commit_nothing_to_commit_success_witness :
    ((1 : Int) ≠ 0) ∧
    containsSub "nothing to commit, working tree clean" "nothing to commit" = true ∧
    commitRun (ProcOutcome.completed 1 "" "nothing to commit, working tree clean") = true :=
  ⟨by decide, by rfl,
   commit_nothing_to_commit_success 1 "" "nothing to commit, working tree clean"
     (by decide) (by rfl)⟩

/-- Claim C7, evaluated on the code: a poll iteration whose remote query
failed ends in the time.sleep wait, and that wait is not interruptible by
the stop signal (only the stop-event wait of non-failure iterations is).
This contradicts the claim that every blocking wait in the detector loop
is interruptible by the stop signal, including on failed-query
iterations. -/
theorem poll_failure_wait_not_interruptible :
    (pollIter ⟨none, false⟩ ⟨none, true, true⟩).2.2 = WaitKind.sleepWait ∧
    interruptibleWait WaitKind.sleepWait = false ∧
    interruptibleWait WaitKind.eventWait = true :=
  ⟨rfl, rfl, rfl⟩

/-- Claim C8: every git subprocess invocation carries the fixed timeout
bound of 120, and a timed-out run is reported as a distinct failure
triple (nonzero exit code with the Timeout diagnostic) rather than an
escaping exception. -/
theorem git_invocation_timeout_bounded (args : List String) :
    (mkGitInvocation args).timeout = 120 ∧
    runGit ProcOutcome.timedOut = (-1, "", "Timeout") ∧
    ((-1 : Int) ≠ 0) :=
  ⟨rfl, rfl, by decide⟩

/-- Claim C9: when the branch-specific clone fails with a branch-not-found
diagnostic and the fallback default-branch clone succeeds, clone reports
success, having created the parent directories and attempted both the
branch clone and the default-branch clone. -/
theorem clone_branch_not_found_falls_back (code : Int) (out err : String) (fb : Int)
    (hc : code ≠ 0)
    (hd : containsSub (lowerStr err) "not found" = true ∨
          containsSub (lowerStr err) couldntFind = true)
    (hf : fb = 0) :
    cloneRun (code, out, err) fb =
      (true, [CloneAction.makeParentDirs, CloneAction.cloneWithBranch, CloneAction.cloneDefault]) := by
  subst hf
  unfold cloneRun
  simp [hc, hd]

/-- Witness for C9: a branch clone failing with a not-found diagnostic
and a succeeding fallback clone yields success with all three steps. -/
theorem clone_branch_not_found_falls_back_witness :
    ((1 : Int) ≠ 0) ∧
    containsSub (lowerStr "fatal: Remote branch dev not found in upstream origin") "not found" = true ∧
    cloneRun (1, "", "fatal: Remote branch dev not found in upstream origin") 0 =
      (true, [CloneAction.makeParentDirs, CloneAction.cloneWithBranch, CloneAction.cloneDefault]) :=
  ⟨by decide, by rfl,
   clone_branch_not_found_falls_back 1 "" "fatal: Remote branch dev not found in upstream origin" 0
     (by decide) (Or.inl (by rfl)) rfl⟩

/-- Claim C10: with an existing working copy and no established revision,
the first successful query adopts the fetched revision with no pull; a
later query returning the adopted revision itself issues no pull and
changes nothing; and a later query returning a different revision issues
exactly a pull, which adopts it. -/
theorem existing_repo_first_query_adopts_without_pull (A B : String) (c p c2 c3 p3 : Bool)
    (h : B ≠ A) :
    pollIter ⟨none, true⟩ ⟨some A, c, p⟩ = (⟨some A, true⟩, [], WaitKind.eventWait) ∧
    pollIter ⟨some A, true⟩ ⟨some A, c3, p3⟩ = (⟨some A, true⟩, [], WaitKind.eventWait) ∧
    pollIter ⟨some A, true⟩ ⟨some B, c2, true⟩ =
      (⟨some B, true⟩, [GatewayCall.pullCall], WaitKind.eventWait) := by
  refine ⟨rfl, ?_, ?_⟩
  · simp [pollIter]
  · simp [pollIter, h]

/-- Witness for C10: concrete distinct revisions a and b; a repeated
query for the adopted revision a issues no pull. -/
theorem existing_repo_first_query_adopts_without_pull_witness :
    ("b" : String) ≠ "a" ∧
    pollIter ⟨some "a", true⟩ ⟨some "a", true, true⟩ =
      (⟨some "a", true⟩, [], WaitKind.eventWait) :=
  ⟨by decide,
   (existing_repo_first_query_adopts_without_pull "a" "b" true true true true true (by decide)).2.1⟩
